import Mathlib

/-!
Shallow embedding of the rendering core of `playground-gfx`
(`src/playground-wgpu/src/main.rs` and `src/playground-wgpu/src/texture.rs`,
wgpu 0.5 era API).  Scalar `f32` fields of descriptor records are embedded as
exact rationals (`Rat`); byte sizes of `repr(C)` structs are embedded as the
explicit `Nat` values `mem::size_of` returns for them.  GPU handles created by
the device (swapchains, buffers, textures, samplers) are embedded as records
carrying the descriptor they were created from plus a numeric identity; the
`Device` record carries creation counters so that device-side work (such as a
swapchain recreation) is observable in the model.
-/

namespace Playground

/-- `winit::dpi::PhysicalSize<u32>`. -/
structure PhysicalSize where
  width : Nat
  height : Nat
deriving DecidableEq, Repr

/-- `wgpu::TextureFormat` (only the variants this program uses). -/
inductive TextureFormat
  | Bgra8UnormSrgb
  | Rgba8UnormSrgb
deriving DecidableEq, Repr

/-- `wgpu::PresentMode` (only the variant this program uses). -/
inductive PresentMode
  | Fifo
deriving DecidableEq, Repr

/-- `wgpu::TextureUsage` bit flags, embedded as one flag per bit the program
uses (`OUTPUT_ATTACHMENT`, `SAMPLED`, `COPY_DST`). -/
structure TextureUsage where
  output_attachment : Bool
  sampled : Bool
  copy_dst : Bool
deriving DecidableEq, Repr

/-- `TextureUsage::OUTPUT_ATTACHMENT`. -/
def TextureUsage.OUTPUT_ATTACHMENT : TextureUsage :=
  { output_attachment := true, sampled := false, copy_dst := false }

/-- `TextureUsage::SAMPLED | TextureUsage::COPY_DST`. -/
def TextureUsage.SAMPLED_COPY_DST : TextureUsage :=
  { output_attachment := false, sampled := true, copy_dst := true }

/-- `wgpu::BufferUsage` (only the variants this program uses). -/
inductive BufferUsage
  | VERTEX
  | INDEX
  | COPY_SRC
deriving DecidableEq, Repr

/-- `wgpu::SwapChainDescriptor` (main.rs:109-115). -/
structure SwapChainDescriptor where
  usage : TextureUsage
  format : TextureFormat
  width : Nat
  height : Nat
  present_mode : PresentMode
deriving DecidableEq, Repr

/-- A swapchain handle: the descriptor it was created from plus a numeric
identity distinguishing successive `create_swap_chain` calls. -/
structure SwapChain where
  descriptor : SwapChainDescriptor
  id : Nat
deriving DecidableEq, Repr

/-- `wgpu::Extent3d`. -/
structure Extent3d where
  width : Nat
  height : Nat
  depth : Nat
deriving DecidableEq, Repr

/-- `wgpu::Origin3d`. -/
structure Origin3d where
  x : Nat
  y : Nat
  z : Nat
deriving DecidableEq, Repr

/-- `wgpu::Origin3d::ZERO`. -/
def Origin3d.ZERO : Origin3d := ⟨0, 0, 0⟩

/-- `wgpu::TextureDimension` (only the variant this program uses). -/
inductive TextureDimension
  | D2
deriving DecidableEq, Repr

/-- `wgpu::TextureDescriptor` (texture.rs:37-46). -/
structure TextureDescriptor where
  size : Extent3d
  array_layer_count : Nat
  mip_level_count : Nat
  sample_count : Nat
  dimension : TextureDimension
  format : TextureFormat
  usage : TextureUsage
  label : Option String
deriving DecidableEq, Repr

/-- A GPU texture handle: its creation descriptor plus a numeric identity. -/
structure GpuTexture where
  descriptor : TextureDescriptor
  id : Nat
deriving DecidableEq, Repr

/-- A texture view handle (`texture.create_default_view()`). -/
structure TextureView where
  texture_id : Nat
deriving DecidableEq, Repr

/-- `wgpu::AddressMode` (only the variant this program uses). -/
inductive AddressMode
  | ClampToEdge
deriving DecidableEq, Repr

/-- `wgpu::FilterMode`. -/
inductive FilterMode
  | Linear
  | Nearest
deriving DecidableEq, Repr

/-- `wgpu::CompareFunction` (only the variant this program uses). -/
inductive CompareFunction
  | Always
deriving DecidableEq, Repr

/-- `wgpu::SamplerDescriptor` (texture.rs:73-83); `f32` clamps as `Rat`. -/
structure SamplerDescriptor where
  address_mode_u : AddressMode
  address_mode_v : AddressMode
  address_mode_w : AddressMode
  mag_filter : FilterMode
  min_filter : FilterMode
  mipmap_filter : FilterMode
  lod_min_clamp : Rat
  lod_max_clamp : Rat
  compare : CompareFunction
deriving DecidableEq, Repr

/-- A sampler handle: its creation descriptor plus a numeric identity. -/
structure Sampler where
  descriptor : SamplerDescriptor
  id : Nat
deriving DecidableEq, Repr

/-- A GPU buffer handle: the byte length and usage it was created with
(`device.create_buffer_with_data`), plus a numeric identity. -/
structure Buffer where
  size_bytes : Nat
  usage : BufferUsage
  id : Nat
deriving DecidableEq, Repr

/-- `texture::Texture` (texture.rs:9-13). -/
structure Texture where
  texture : GpuTexture
  view : TextureView
  sampler : Sampler
deriving DecidableEq, Repr

/-- `wgpu::VertexFormat` (only the variants this program uses). -/
inductive VertexFormat
  | Float2
  | Float3
deriving DecidableEq, Repr

/-- Byte size of a `wgpu::VertexFormat` value (f32 components, 4 bytes each). -/
def VertexFormat.size : VertexFormat → Nat
  | .Float2 => 2 * 4
  | .Float3 => 3 * 4

/-- `wgpu::InputStepMode` (only the variant this program uses). -/
inductive InputStepMode
  | Vertex
deriving DecidableEq, Repr

/-- `wgpu::VertexAttributeDescriptor`. -/
structure VertexAttributeDescriptor where
  offset : Nat
  shader_location : Nat
  format : VertexFormat
deriving DecidableEq, Repr

/-- `wgpu::VertexBufferDescriptor`. -/
structure VertexBufferDescriptor where
  stride : Nat
  step_mode : InputStepMode
  attributes : List VertexAttributeDescriptor
deriving DecidableEq, Repr

/-- The `Vertex` struct (main.rs:22-27): `repr(C)`, a 3-float position
followed by a 2-float texture coordinate; `f32` components as `Rat`. -/
structure Vertex where
  position : List Rat
  tex_coords : List Rat
deriving DecidableEq, Repr

/-- `mem::size_of::<[f32; 3]>()`: three 4-byte floats. -/
def size_of_position : Nat := 3 * 4

/-- `mem::size_of::<[f32; 2]>()`: two 4-byte floats. -/
def size_of_tex_coords : Nat := 2 * 4

/-- `mem::size_of::<Vertex>()`: `repr(C)` with two 4-byte-aligned float
arrays and no padding, so the struct size is the sum of the field sizes. -/
def size_of_Vertex : Nat := size_of_position + size_of_tex_coords

/-- `Vertex::descriptor()` (main.rs:30-57). -/
def Vertex.descriptor : VertexBufferDescriptor :=
  { stride := size_of_Vertex
    step_mode := InputStepMode.Vertex
    attributes :=
      [ { offset := 0
          shader_location := 0
          format := VertexFormat.Float3 }
      , { offset := size_of_position
          shader_location := 1
          format := VertexFormat.Float2 } ] }

/-- The `VERTICES` fixture (main.rs:12-18): the five pentagon vertices. -/
def VERTICES : List Vertex :=
  [ { position := [-0.0868241, 0.49240386, 0.0], tex_coords := [0.4131759, 0.00759614] }
  , { position := [-0.49513406, 0.06958647, 0.0], tex_coords := [0.0048659444, 0.43041354] }
  , { position := [-0.21918549, -0.44939706, 0.0], tex_coords := [0.28081453, 0.949397057] }
  , { position := [0.35966998, -0.3473291, 0.0], tex_coords := [0.85967, 0.84732911] }
  , { position := [0.44147372, 0.2347359, 0.0], tex_coords := [0.9414737, 0.2652641] } ]

/-- The `INDICES` fixture (main.rs:20): the pentagon fan's nine u16 indices. -/
def INDICES : List Nat := [0, 1, 4, 1, 2, 4, 2, 3, 4]

/-- A compiled shader module.  The GLSL sources and their SPIR-V compilation
(main.rs:176-189) are external to this core; the two modules the program
creates are embedded as opaque tokens. -/
inductive ShaderModule
  | vertexShader
  | fragmentShader
deriving DecidableEq, Repr

/-- `wgpu::ProgrammableStageDescriptor`. -/
structure ProgrammableStageDescriptor where
  module : ShaderModule
  entry_point : String
deriving DecidableEq, Repr

/-- `wgpu::FrontFace` . -/
inductive FrontFace
  | Ccw
  | Cw
deriving DecidableEq, Repr

/-- `wgpu::CullMode`. -/
inductive CullMode
  | None
  | Front
  | Back
deriving DecidableEq, Repr

/-- `wgpu::RasterizationStateDescriptor`; `f32` biases as `Rat`. -/
structure RasterizationStateDescriptor where
  front_face : FrontFace
  cull_mode : CullMode
  depth_bias : Int
  depth_bias_slope_scale : Rat
  depth_bias_clamp : Rat
deriving DecidableEq, Repr

/-- `wgpu::BlendFactor` (only the variants `REPLACE` uses). -/
inductive BlendFactor
  | Zero
  | One
deriving DecidableEq, Repr

/-- `wgpu::BlendOperation` (only the variant `REPLACE` uses). -/
inductive BlendOperation
  | Add
deriving DecidableEq, Repr

/-- `wgpu::BlendDescriptor`. -/
structure BlendDescriptor where
  src_factor : BlendFactor
  dst_factor : BlendFactor
  operation : BlendOperation
deriving DecidableEq, Repr

/-- `wgpu::BlendDescriptor::REPLACE`: output replaces the destination. -/
def BlendDescriptor.REPLACE : BlendDescriptor :=
  { src_factor := BlendFactor.One
    dst_factor := BlendFactor.Zero
    operation := BlendOperation.Add }

/-- `wgpu::ColorWrite` bit mask. -/
structure ColorWrite where
  bits : Nat
deriving DecidableEq, Repr

/-- `wgpu::ColorWrite::ALL` (red, green, blue and alpha bits). -/
def ColorWrite.ALL : ColorWrite := ⟨15⟩

/-- `wgpu::ColorStateDescriptor`. -/
structure ColorStateDescriptor where
  format : TextureFormat
  alpha_blend : BlendDescriptor
  color_blend : BlendDescriptor
  write_mask : ColorWrite
deriving DecidableEq, Repr

/-- `wgpu::PrimitiveTopology` (only the variant this program uses). -/
inductive PrimitiveTopology
  | TriangleList
deriving DecidableEq, Repr

/-- `wgpu::IndexFormat`. -/
inductive IndexFormat
  | Uint16
  | Uint32
deriving DecidableEq, Repr

/-- `wgpu::VertexStateDescriptor`. -/
structure VertexStateDescriptor where
  index_format : IndexFormat
  vertex_buffers : List VertexBufferDescriptor
deriving DecidableEq, Repr

/-- `wgpu::TextureComponentType` (variants relevant to the binding). -/
inductive TextureComponentType
  | Uint
  | Float
deriving DecidableEq, Repr

/-- `wgpu::TextureViewDimension` (only the variant this program uses). -/
inductive TextureViewDimension
  | D2
deriving DecidableEq, Repr

/-- `wgpu::ShaderStage` visibility (only the variant this program uses). -/
inductive ShaderStage
  | FRAGMENT
deriving DecidableEq, Repr

/-- `wgpu::BindingType` (the two shapes the layout declares). -/
inductive BindingType
  | SampledTexture (multisampled : Bool) (dimension : TextureViewDimension)
      (component_type : TextureComponentType)
  | SamplerBinding (comparison : Bool)
deriving DecidableEq, Repr

/-- `wgpu::BindGroupLayoutEntry`. -/
structure BindGroupLayoutEntry where
  binding : Nat
  visibility : ShaderStage
  ty : BindingType
deriving DecidableEq, Repr

/-- `wgpu::BindGroupLayoutDescriptor`. -/
structure BindGroupLayoutDescriptor where
  bindings : List BindGroupLayoutEntry
  label : Option String
deriving DecidableEq, Repr

/-- `wgpu::BindingResource`. -/
inductive BindingResource
  | TextureViewRes (view : TextureView)
  | SamplerRes (sampler : Sampler)
deriving DecidableEq, Repr

/-- `wgpu::Binding`. -/
structure Binding where
  binding : Nat
  resource : BindingResource
deriving DecidableEq, Repr

/-- A bind group: its layout and concrete bindings (main.rs:160-173). -/
structure BindGroup where
  layout : BindGroupLayoutDescriptor
  bindings : List Binding
  label : Option String
deriving DecidableEq, Repr

/-- `wgpu::PipelineLayoutDescriptor`. -/
structure PipelineLayoutDescriptor where
  bind_group_layouts : List BindGroupLayoutDescriptor
deriving DecidableEq, Repr

/-- `wgpu::RenderPipelineDescriptor` (main.rs:195-233); the immutable
pipeline object is embedded as the descriptor it was built from. -/
structure RenderPipelineDescriptor where
  layout : PipelineLayoutDescriptor
  vertex_stage : ProgrammableStageDescriptor
  fragment_stage : Option ProgrammableStageDescriptor
  rasterization_state : Option RasterizationStateDescriptor
  color_states : List ColorStateDescriptor
  primitive_topology : PrimitiveTopology
  vertex_state : VertexStateDescriptor
  sample_count : Nat
  sample_mask : Nat
  alpha_to_coverage_enabled : Bool
deriving DecidableEq, Repr

/-- `wgpu::Color` with `f64` channels as `Rat`. -/
structure Color where
  r : Rat
  g : Rat
  b : Rat
  a : Rat
deriving DecidableEq, Repr

/-- `wgpu::LoadOp`. -/
inductive LoadOp
  | Clear
  | Load
deriving DecidableEq, Repr

/-- `wgpu::StoreOp`. -/
inductive StoreOp
  | Store
  | Clear
deriving DecidableEq, Repr

/-- An indexed draw command: `draw_indexed(indices, base_vertex, instances)`
with its two ranges spelled out. -/
structure DrawIndexed where
  index_start : Nat
  index_end : Nat
  base_vertex : Int
  instance_start : Nat
  instance_end : Nat
deriving DecidableEq, Repr

/-- The recorded `copy_buffer_to_texture` command (texture.rs:55-69):
the `BufferCopyView`, the `TextureCopyView` and the copy extent. -/
structure BufferToTextureCopy where
  src_buffer : Nat
  src_offset : Nat
  bytes_per_row : Nat
  rows_per_image : Nat
  dst_texture : Nat
  mip_level : Nat
  array_layer : Nat
  origin : Origin3d
  extent : Extent3d
deriving DecidableEq, Repr

/-- The record of one render pass (main.rs:284-305): attachment load/store
and clear color, then the bound pipeline, buffers, bind groups and draws. -/
structure RenderPassRecord where
  load_op : LoadOp
  store_op : StoreOp
  clear_color : Color
  pipeline : RenderPipelineDescriptor
  vertex_buffers : List (Nat × Buffer × Nat × Nat)
  index_buffer : Buffer × Nat × Nat
  bind_groups : List (Nat × BindGroup)
  draws : List DrawIndexed
deriving DecidableEq, Repr

/-- One recorded GPU command. -/
inductive Command
  | copyBufferToTexture (copy : BufferToTextureCopy)
  | renderPass (pass : RenderPassRecord)
deriving DecidableEq, Repr

/-- A finished command buffer (`encoder.finish()`). -/
structure CommandBuffer where
  commands : List Command
deriving DecidableEq, Repr

/-- The command-submission queue: the list of submitted command buffers. -/
structure Queue where
  submitted : List CommandBuffer
deriving DecidableEq, Repr

/-- `queue.submit(&[...])`. -/
def Queue.submit (q : Queue) (buffers : List CommandBuffer) : Queue :=
  { submitted := q.submitted ++ buffers }

/-- The logical device handle.  Creation counters make device-side work
(allocation of swapchains, buffers, textures, samplers) observable and give
each created handle a fresh identity. -/
structure Device where
  swap_chains_created : Nat
  buffers_created : Nat
  textures_created : Nat
  samplers_created : Nat
deriving DecidableEq, Repr

/-- The presentation surface handle (contentless in this model). -/
inductive Surface
  | mk
deriving DecidableEq, Repr

/-- The adapter handle (contentless in this model). -/
inductive Adapter
  | mk
deriving DecidableEq, Repr

/-- `device.create_swap_chain(&surface, &sc_desc)`: a fresh swapchain built
from the given descriptor; one unit of device work. -/
def Device.create_swap_chain (d : Device) (_surface : Surface)
    (desc : SwapChainDescriptor) : SwapChain × Device :=
  ( { descriptor := desc, id := d.swap_chains_created }
  , { d with swap_chains_created := d.swap_chains_created + 1 } )

/-- `device.create_buffer_with_data(bytes, usage)`: a fresh device-resident
buffer pre-populated with `len` bytes. -/
def Device.create_buffer_with_data (d : Device) (len : Nat)
    (usage : BufferUsage) : Buffer × Device :=
  ( { size_bytes := len, usage := usage, id := d.buffers_created }
  , { d with buffers_created := d.buffers_created + 1 } )

/-- `device.create_texture(&descriptor)`. -/
def Device.create_texture (d : Device) (desc : TextureDescriptor) :
    GpuTexture × Device :=
  ( { descriptor := desc, id := d.textures_created }
  , { d with textures_created := d.textures_created + 1 } )

/-- `device.create_sampler(&descriptor)`. -/
def Device.create_sampler (d : Device) (desc : SamplerDescriptor) :
    Sampler × Device :=
  ( { descriptor := desc, id := d.samplers_created }
  , { d with samplers_created := d.samplers_created + 1 } )

/-- `texture.create_default_view()`. -/
def GpuTexture.create_default_view (t : GpuTexture) : TextureView :=
  { texture_id := t.id }

/-- An `image::RgbaImage`: a decoded width×height RGBA8 pixel buffer
(`pixels` is the raw byte vector, four bytes per pixel). -/
structure RgbaImage where
  width : Nat
  height : Nat
  pixels : List Nat
deriving DecidableEq, Repr

/-- `image::DynamicImage` (the RGBA8 variant and, standing for every
variant without a full alpha channel, the RGB8 variant). -/
inductive DynamicImage
  | ImageRgba8 (img : RgbaImage)
  | ImageRgb8 (width : Nat) (height : Nat) (pixels : List Nat)
deriving DecidableEq, Repr

/-- `img.as_rgba8()`: `Some` only for the RGBA8 variant. -/
def DynamicImage.as_rgba8 : DynamicImage → Option RgbaImage
  | .ImageRgba8 img => some img
  | .ImageRgb8 _ _ _ => none

/-- `img.dimensions()`. -/
def DynamicImage.dimensions : DynamicImage → Nat × Nat
  | .ImageRgba8 img => (img.width, img.height)
  | .ImageRgb8 w h _ => (w, h)

/-- The decode error carried by `image::load_from_memory`'s `Err` and
propagated by `?` (the spec's `ImageDecodeError`). -/
inductive ImageError
  | ImageDecodeError (msg : String)
deriving DecidableEq, Repr

/-- Outcome of the external decoder call `image::load_from_memory(bytes)`:
an error on malformed bytes, or the decoded dynamic image. -/
inductive LoadResult
  | err (e : ImageError)
  | ok (img : DynamicImage)
deriving DecidableEq, Repr

/-- Outcome of `Texture::from_image`: in the source it either panics (the
`as_rgba8().unwrap()` on a non-RGBA image) or returns the texture together
with the unsubmitted upload command buffer. -/
inductive FromImageResult
  | panicked (msg : String)
  | ok (texture : Texture) (cmd_buffer : CommandBuffer)
deriving DecidableEq, Repr

/-- Outcome of `Texture::from_bytes`: a returned decode error (via `?`),
a panic from `from_image`, or success. -/
inductive FromBytesResult
  | error (e : ImageError)
  | panicked (msg : String)
  | ok (texture : Texture) (cmd_buffer : CommandBuffer)
deriving DecidableEq, Repr

/-- The success path of `Texture::from_image` (texture.rs:29-92), once
`as_rgba8` has produced an RGBA8 buffer: create the texture, stage the
pixels in a `COPY_SRC` buffer, record the buffer-to-texture copy, finish
the encoder into a command buffer (returned, not submitted — `from_image`
has no access to the queue), create the view and sampler. -/
def Texture.from_rgba8 (d : Device) (rgba : RgbaImage) :
    Texture × CommandBuffer × Device :=
  let dimensions := (rgba.width, rgba.height)
  let size : Extent3d := { width := dimensions.1, height := dimensions.2, depth := 1 }
  let (texture, d) := d.create_texture
    { size := size
      array_layer_count := 1
      mip_level_count := 1
      sample_count := 1
      dimension := TextureDimension.D2
      format := TextureFormat.Rgba8UnormSrgb
      usage := TextureUsage.SAMPLED_COPY_DST
      label := some "texture" }
  let (buffer, d) := d.create_buffer_with_data rgba.pixels.length BufferUsage.COPY_SRC
  let copy : BufferToTextureCopy :=
    { src_buffer := buffer.id
      src_offset := 0
      bytes_per_row := 4 * dimensions.1
      rows_per_image := dimensions.2
      dst_texture := texture.id
      mip_level := 0
      array_layer := 0
      origin := Origin3d.ZERO
      extent := size }
  let cmd_buffer : CommandBuffer := { commands := [Command.copyBufferToTexture copy] }
  let view := texture.create_default_view
  let (sampler, d) := d.create_sampler
    { address_mode_u := AddressMode.ClampToEdge
      address_mode_v := AddressMode.ClampToEdge
      address_mode_w := AddressMode.ClampToEdge
      mag_filter := FilterMode.Linear
      min_filter := FilterMode.Nearest
      mipmap_filter := FilterMode.Nearest
      lod_min_clamp := -100
      lod_max_clamp := 100
      compare := CompareFunction.Always }
  ({ texture := texture, view := view, sampler := sampler }, cmd_buffer, d)

/-- `Texture::from_image` (texture.rs:24-93): `img.as_rgba8().unwrap()`
panics on any image without a full alpha channel, before any device work;
otherwise the upload proceeds as in `Texture.from_rgba8`. -/
def Texture.from_image (d : Device) (img : DynamicImage) :
    FromImageResult × Device :=
  match img.as_rgba8 with
  | none => (FromImageResult.panicked "called Option::unwrap on a None value", d)
  | some rgba =>
      let (t, cmd, d) := Texture.from_rgba8 d rgba
      (FromImageResult.ok t cmd, d)

/-- `Texture::from_bytes` (texture.rs:16-22): the decoder's error is
propagated by `?` with no device work; a decoded image goes to
`from_image`. -/
def Texture.from_bytes (d : Device) (load : LoadResult) :
    FromBytesResult × Device :=
  match load with
  | .err e => (FromBytesResult.error e, d)
  | .ok img =>
      match Texture.from_image d img with
      | (.panicked msg, d) => (FromBytesResult.panicked msg, d)
      | (.ok t cmd, d) => (FromBytesResult.ok t cmd, d)

/-- The `texture_bind_group_layout` (main.rs:138-158). -/
def texture_bind_group_layout : BindGroupLayoutDescriptor :=
  { bindings :=
      [ { binding := 0
          visibility := ShaderStage.FRAGMENT
          ty := BindingType.SampledTexture false TextureViewDimension.D2
                  TextureComponentType.Uint }
      , { binding := 1
          visibility := ShaderStage.FRAGMENT
          ty := BindingType.SamplerBinding false } ]
    label := some "texture_bind_group_layout" }

/-- The render pipeline built in `State::new` (main.rs:191-233) as a
function of the swapchain descriptor it reads its color format from. -/
def render_pipeline_descriptor (sc_desc : SwapChainDescriptor) :
    RenderPipelineDescriptor :=
  { layout := { bind_group_layouts := [texture_bind_group_layout] }
    vertex_stage := { module := ShaderModule.vertexShader, entry_point := "main" }
    fragment_stage := some { module := ShaderModule.fragmentShader, entry_point := "main" }
    rasterization_state := some
      { front_face := FrontFace.Ccw
        cull_mode := CullMode.Back
        depth_bias := 0
        depth_bias_slope_scale := 0
        depth_bias_clamp := 0 }
    color_states :=
      [ { format := sc_desc.format
          alpha_blend := BlendDescriptor.REPLACE
          color_blend := BlendDescriptor.REPLACE
          write_mask := ColorWrite.ALL } ]
    primitive_topology := PrimitiveTopology.TriangleList
    vertex_state :=
      { index_format := IndexFormat.Uint16
        vertex_buffers := [Vertex.descriptor] }
    sample_count := 1
    sample_mask := 2 ^ 32 - 1
    alpha_to_coverage_enabled := false }

/-- The `State` struct (main.rs:65-81). -/
structure State where
  surface : Surface
  adapter : Adapter
  device : Device
  queue : Queue
  sc_desc : SwapChainDescriptor
  swap_chain : SwapChain
  size : PhysicalSize
  render_pipeline : RenderPipelineDescriptor
  vertex_buffer : Buffer
  index_buffer : Buffer
  num_indices : Nat
  diffuse_texture : Texture
  diffuse_bind_group : BindGroup
deriving DecidableEq, Repr

/-- `State::new` (main.rs:84-256).  The window's inner size is the `size`
argument; adapter/device negotiation is external and always succeeds here
with a fresh device.  The embedded `happy-tree.png` asset is external: it is
passed as its decoded RGBA8 image `tree`, under which `from_bytes(...)
.unwrap()` succeeds.  `new` itself submits the returned upload command
buffer to the queue (main.rs:123). -/
def State.new (size : PhysicalSize) (tree : RgbaImage) : State :=
  let surface := Surface.mk
  let adapter := Adapter.mk
  let num_indices := INDICES.length
  let device : Device := ⟨0, 0, 0, 0⟩
  let queue : Queue := ⟨[]⟩
  let sc_desc : SwapChainDescriptor :=
    { usage := TextureUsage.OUTPUT_ATTACHMENT
      format := TextureFormat.Bgra8UnormSrgb
      width := size.width
      height := size.height
      present_mode := PresentMode.Fifo }
  let (swap_chain, device) := device.create_swap_chain surface sc_desc
  let (diffuse_texture, cmd_buffer, device) := Texture.from_rgba8 device tree
  let queue := queue.submit [cmd_buffer]
  let diffuse_bind_group : BindGroup :=
    { layout := texture_bind_group_layout
      bindings :=
        [ { binding := 0, resource := BindingResource.TextureViewRes diffuse_texture.view }
        , { binding := 1, resource := BindingResource.SamplerRes diffuse_texture.sampler } ]
      label := some "diffuse_bind_group" }
  let render_pipeline := render_pipeline_descriptor sc_desc
  let (vertex_buffer, device) :=
    device.create_buffer_with_data (VERTICES.length * size_of_Vertex) BufferUsage.VERTEX
  let (index_buffer, device) :=
    device.create_buffer_with_data (INDICES.length * 2) BufferUsage.INDEX
  { surface := surface
    adapter := adapter
    device := device
    queue := queue
    sc_desc := sc_desc
    swap_chain := swap_chain
    size := size
    render_pipeline := render_pipeline
    vertex_buffer := vertex_buffer
    index_buffer := index_buffer
    num_indices := num_indices
    diffuse_texture := diffuse_texture
    diffuse_bind_group := diffuse_bind_group }

/-- `State::resize` (main.rs:258-263): store the new size, write it into
the swapchain descriptor and unconditionally recreate the swapchain from
that descriptor against the existing surface and device. -/
def State.resize (s : State) (new_size : PhysicalSize) : State :=
  let sc_desc := { s.sc_desc with width := new_size.width, height := new_size.height }
  let (swap_chain, device) := s.device.create_swap_chain s.surface sc_desc
  { s with size := new_size, sc_desc := sc_desc, swap_chain := swap_chain, device := device }

/-- `winit::event::WindowEvent` (the shapes `main` matches on). -/
inductive VirtualKeyCode
  | Escape
  | OtherKey
deriving DecidableEq, Repr

/-- A window event as dispatched by the event loop (main.rs:325-343). -/
inductive WindowEvent
  | CloseRequested
  | KeyboardInputEvent (pressed : Bool) (virtual_keycode : Option VirtualKeyCode)
  | Resized (physical_size : PhysicalSize)
  | ScaleFactorChanged (new_inner_size : PhysicalSize)
  | Other
deriving DecidableEq, Repr

/-- `State::input` (main.rs:265-267): ignores the event, changes nothing
and returns `false`. -/
def State.input (s : State) (_event : WindowEvent) : Bool × State :=
  (false, s)

/-- `State::update` (main.rs:269): a no-op. -/
def State.update (s : State) : State := s

/-- Outcome of `swap_chain.get_next_texture()` — acquiring the next
presentable image is backend work external to this core: it either yields
a frame or times out. -/
inductive AcquireResult
  | ok (frame : TextureView)
  | timeout
deriving DecidableEq, Repr

/-- Outcome of one `State::render` call: either the `.expect("Timeout
getting texture")` panic, or the command buffer submitted to the queue. -/
inductive RenderOutcome
  | panicked (msg : String)
  | submitted (cmd : CommandBuffer)
deriving DecidableEq, Repr

/-- `State::render` (main.rs:271-308), parameterized by the backend's
acquire outcome.  One acquisition is attempted per call; on timeout the
`expect` panics and nothing is recorded or submitted.  On success one
render pass is recorded (clear to the background color, bind pipeline,
vertex buffer at slot 0, index buffer, bind group 0, one indexed draw over
`0..num_indices` with base vertex 0 and instances `0..1`) and the finished
command buffer is submitted. -/
def State.render (s : State) (acquire : AcquireResult) : RenderOutcome × State :=
  match acquire with
  | .timeout => (RenderOutcome.panicked "Timeout getting texture", s)
  | .ok _frame =>
      let pass : RenderPassRecord :=
        { load_op := LoadOp.Clear
          store_op := StoreOp.Store
          clear_color := { r := 0.1, g := 0.2, b := 0.3, a := 1.0 }
          pipeline := s.render_pipeline
          vertex_buffers := [(0, s.vertex_buffer, 0, 0)]
          index_buffer := (s.index_buffer, 0, 0)
          bind_groups := [(0, s.diffuse_bind_group)]
          draws :=
            [ { index_start := 0
                index_end := s.num_indices
                base_vertex := 0
                instance_start := 0
                instance_end := 1 } ] }
      let cmd : CommandBuffer := { commands := [Command.renderPass pass] }
      (RenderOutcome.submitted cmd, { s with queue := s.queue.submit [cmd] })

/-- `winit::event_loop::ControlFlow` (the variants `main` uses). -/
inductive ControlFlow
  | Poll
  | Exit
deriving DecidableEq, Repr

/-- The default window-event handling of the event loop: the inner `match`
of `main` (main.rs:325-343), reached when `input` has not handled the
event. -/
def defaultWindowEventHandling (s : State) (cf : ControlFlow)
    (event : WindowEvent) : State × ControlFlow :=
  match event with
  | .CloseRequested => (s, ControlFlow.Exit)
  | .KeyboardInputEvent true (some VirtualKeyCode.Escape) => (s, ControlFlow.Exit)
  | .KeyboardInputEvent _ _ => (s, cf)
  | .Resized physical_size => (s.resize physical_size, cf)
  | .ScaleFactorChanged new_inner_size => (s.resize new_inner_size, cf)
  | .Other => (s, cf)

/-- The event loop's window-event arm (main.rs:320-345): offer the event to
`State::input` first; only when it reports the event unhandled does the
default handling run. -/
def handleWindowEvent (s : State) (cf : ControlFlow)
    (event : WindowEvent) : State × ControlFlow :=
  let (handled, s) := s.input event
  if handled then (s, cf)
  else defaultWindowEventHandling s cf event

/-- A concrete RGBA8 image standing in for the decoded tree asset. -/
def treeFixture : RgbaImage :=
  { width := 2, height := 2, pixels := List.replicate 16 255 }

/-- A concrete session state: the state `State::new` constructs for an
800×600 window with the tree fixture. -/
def testState : State := State.new ⟨800, 600⟩ treeFixture

/-- C1: after any sequence of resize calls ending in `resize sz`, the
swapchain descriptor's width and height equal `sz` (the most recently
observed surface size) and the current swapchain was created from exactly
that descriptor. -/
theorem resize_swapchain_tracks_last_size (s : State)
    (resizes : List PhysicalSize) (sz : PhysicalSize) :
    ((resizes ++ [sz]).foldl State.resize s).sc_desc.width = sz.width ∧
    ((resizes ++ [sz]).foldl State.resize s).sc_desc.height = sz.height ∧
    ((resizes ++ [sz]).foldl State.resize s).swap_chain.descriptor =
      ((resizes ++ [sz]).foldl State.resize s).sc_desc := by
  have h : (resizes ++ [sz]).foldl State.resize s =
      State.resize (resizes.foldl State.resize s) sz := by
    simp [List.foldl_append]
  rw [h]
  exact ⟨rfl, rfl, rfl⟩

/-- C2 counterexample: at the concrete 800×600 session state, a resize with
the currently stored size is not a no-op: the device performs one more
`create_swap_chain` call and the swapchain handle identity changes, so
observable device work is done and the recreation is distinguishable. -/
theorem resize_same_size_recreates_counterexample :
    (testState.resize testState.size).device.swap_chains_created =
      testState.device.swap_chains_created + 1 ∧
    (testState.resize testState.size).swap_chain ≠ testState.swap_chain ∧
    testState.resize testState.size ≠ testState := by
  refine ⟨rfl, ?_, ?_⟩
  · intro h
    have hid := congrArg SwapChain.id h
    exact absurd hid (by decide)
  · intro h
    have hc := congrArg (fun st => st.device.swap_chains_created) h
    exact absurd hc (by decide)

/-- C2 amended: a resize with the currently stored size leaves the stored
size and the swapchain descriptor unchanged (in any state whose descriptor
matches the stored size, as `State::new` and every resize establish), and
the recreated swapchain is built from that same descriptor — but the
recreation is unconditional: one additional `create_swap_chain` device call
is performed. -/
theorem resize_same_size_amended (s : State)
    (hw : s.sc_desc.width = s.size.width)
    (hh : s.sc_desc.height = s.size.height) :
    (s.resize s.size).sc_desc = s.sc_desc ∧
    (s.resize s.size).size = s.size ∧
    (s.resize s.size).swap_chain.descriptor = s.sc_desc ∧
    (s.resize s.size).device.swap_chains_created =
      s.device.swap_chains_created + 1 := by
  have hdesc : (s.resize s.size).sc_desc = s.sc_desc := by
    show { s.sc_desc with width := s.size.width, height := s.size.height } = s.sc_desc
    rw [← hw, ← hh]
  exact ⟨hdesc, rfl, hdesc, rfl⟩

/-- C2 amended, witnessed at the concrete 800×600 session state. -/
theorem resize_same_size_amended_witness :
    (testState.resize testState.size).sc_desc = testState.sc_desc ∧
    (testState.resize testState.size).size = testState.size ∧
    (testState.resize testState.size).swap_chain.descriptor = testState.sc_desc ∧
    (testState.resize testState.size).device.swap_chains_created =
      testState.device.swap_chains_created + 1 :=
  resize_same_size_amended testState rfl rfl

/-- C3: `State::resize` performs no clamping — a requested width and height
of 0 are stored verbatim in the swapchain descriptor and the swapchain is
recreated at zero area, contradicting the spec's requirement that a
zero-area request be clamped to at least 1×1 before the descriptor is
updated (a zero-area swapchain is a backend panic/undefined behavior). -/
theorem resize_zero_area_not_clamped (s : State) :
    (s.resize ⟨0, 0⟩).sc_desc.width = 0 ∧
    (s.resize ⟨0, 0⟩).sc_desc.height = 0 ∧
    (s.resize ⟨0, 0⟩).swap_chain.descriptor.width = 0 ∧
    (s.resize ⟨0, 0⟩).swap_chain.descriptor.height = 0 :=
  ⟨rfl, rfl, rfl, rfl⟩

/-- C4: every successful render submits exactly one command buffer holding
exactly one render pass with exactly one indexed draw, covering indices
`0..num_indices` with base vertex 0 and the single instance `0..1`; and for
the pentagon fixture (5 vertices, 9 indices) every state built by
`State::new` caches `num_indices = 9`, so that draw covers exactly 9
indices. -/
theorem render_one_full_draw (s : State) (frame : TextureView)
    (sz : PhysicalSize) (tree : RgbaImage) :
    (∃ pass : RenderPassRecord,
      (s.render (AcquireResult.ok frame)).1 =
        RenderOutcome.submitted { commands := [Command.renderPass pass] } ∧
      pass.draws =
        [ { index_start := 0
            index_end := s.num_indices
            base_vertex := 0
            instance_start := 0
            instance_end := 1 } ]) ∧
    (State.new sz tree).num_indices = 9 ∧
    VERTICES.length = 5 ∧ INDICES.length = 9 :=
  ⟨⟨_, rfl, rfl⟩, rfl, rfl, rfl⟩

/-- C5 counterexample: at the concrete 800×600 session state, a failed
acquisition makes `State::render` panic with "Timeout getting texture"
(`.expect`, main.rs:275) — the failure aborts the process instead of being
reported to the caller as a per-call result. -/
theorem render_timeout_panic_counterexample :
    (testState.render AcquireResult.timeout).1 =
      RenderOutcome.panicked "Timeout getting texture" := rfl

/-- C5 amended: when acquiring the next presentable image fails, render
attempts no internal retry and does no further work — the state and queue
are returned unchanged — but the failure is raised as the panic "Timeout
getting texture", which aborts the process, rather than being reported to
the caller as a per-call result. -/
theorem render_timeout_no_retry_amended (s : State) :
    s.render AcquireResult.timeout =
      (RenderOutcome.panicked "Timeout getting texture", s) := rfl

/-- C6 counterexample: a well-formed 1×1 RGB image without an alpha channel
makes `Texture::from_bytes` panic (`as_rgba8().unwrap()`, texture.rs:28)
instead of returning `ImageDecodeError`. -/
theorem from_bytes_nonrgba_panic_counterexample :
    Texture.from_bytes ⟨0, 0, 0, 0⟩
      (LoadResult.ok (DynamicImage.ImageRgb8 1 1 [255, 255, 255])) =
      (FromBytesResult.panicked "called Option::unwrap on a None value",
        ⟨0, 0, 0, 0⟩) := rfl

/-- C6 amended: on malformed input `Texture::from_bytes` returns the decode
error and creates nothing on the device; but a successfully decoded image
that lacks a full alpha channel makes it panic (without creating a partial
texture) rather than return `ImageDecodeError`. -/
theorem from_bytes_error_amended (d : Device) (e : ImageError)
    (img : DynamicImage) (himg : img.as_rgba8 = none) :
    Texture.from_bytes d (LoadResult.err e) = (FromBytesResult.error e, d) ∧
    Texture.from_bytes d (LoadResult.ok img) =
      (FromBytesResult.panicked "called Option::unwrap on a None value", d) := by
  refine ⟨rfl, ?_⟩
  simp [Texture.from_bytes, Texture.from_image, himg]

/-- C6 amended, witnessed at a concrete device, decode error and 2×2 RGB
image. -/
theorem from_bytes_error_amended_witness :
    Texture.from_bytes ⟨1, 2, 3, 4⟩
        (LoadResult.err (ImageError.ImageDecodeError "bad magic")) =
      (FromBytesResult.error (ImageError.ImageDecodeError "bad magic"),
        ⟨1, 2, 3, 4⟩) ∧
    Texture.from_bytes ⟨1, 2, 3, 4⟩
        (LoadResult.ok (DynamicImage.ImageRgb8 2 2 (List.replicate 12 0))) =
      (FromBytesResult.panicked "called Option::unwrap on a None value",
        ⟨1, 2, 3, 4⟩) :=
  from_bytes_error_amended ⟨1, 2, 3, 4⟩ (ImageError.ImageDecodeError "bad magic")
    (DynamicImage.ImageRgb8 2 2 (List.replicate 12 0)) rfl

/-- C7: for every well-formed RGBA image of size W×H, `Texture::from_image`
succeeds with a texture whose declared extent is exactly (W, H, 1) and a
returned — not submitted, `from_image` never touches the queue — command
buffer holding exactly the buffer-to-texture copy with row pitch 4·W,
rows-per-image H, offset 0 and that full extent; and the only submission
`State::new` makes is that returned upload command buffer (main.rs:123),
submitted by the caller. -/
theorem from_image_full_extent_copy_unsubmitted (d : Device)
    (rgba : RgbaImage) (sz : PhysicalSize) (tree : RgbaImage) :
    (∃ t cmd d2,
      Texture.from_image d (DynamicImage.ImageRgba8 rgba) =
        (FromImageResult.ok t cmd, d2) ∧
      t.texture.descriptor.size =
        { width := rgba.width, height := rgba.height, depth := 1 } ∧
      ∃ copy, cmd.commands = [Command.copyBufferToTexture copy] ∧
        copy.bytes_per_row = 4 * rgba.width ∧
        copy.rows_per_image = rgba.height ∧
        copy.src_offset = 0 ∧
        copy.extent = { width := rgba.width, height := rgba.height, depth := 1 }) ∧
    (State.new sz tree).queue.submitted =
      [(Texture.from_rgba8 ⟨1, 0, 0, 0⟩ tree).2.1] :=
  ⟨⟨_, _, _, rfl, rfl, _, rfl, rfl, rfl, rfl, rfl⟩, rfl⟩

/-- C8: in the declared vertex layout, every attribute's byte offset is the
sum of the sizes of all preceding attributes' formats (so the first sits at
offset 0 and the second at the size of the 3-float position), shader
locations are assigned sequentially from 0, and the stride is the size of
the whole `Vertex` record, which is the sum of all the attribute sizes. -/
theorem vertex_layout_offsets_locations_stride
    (i : Fin Vertex.descriptor.attributes.length) :
    (Vertex.descriptor.attributes.get i).offset =
      ((Vertex.descriptor.attributes.take i.val).map
        (fun a => a.format.size)).sum ∧
    (Vertex.descriptor.attributes.get i).shader_location = i.val ∧
    VertexFormat.Float3.size = size_of_position ∧
    VertexFormat.Float2.size = size_of_tex_coords ∧
    Vertex.descriptor.stride =
      (Vertex.descriptor.attributes.map (fun a => a.format.size)).sum ∧
    Vertex.descriptor.stride = size_of_Vertex := by
  fin_cases i
  · exact ⟨rfl, rfl, rfl, rfl, rfl, rfl⟩
  · exact ⟨rfl, rfl, rfl, rfl, rfl, rfl⟩

/-- C9: the pipeline built by `State::new` declares counter-clockwise front
faces with back-face culling, exactly one color target whose format is the
swapchain descriptor's format with replace blending on both color and
alpha, triangle-list topology, and 16-bit unsigned indices. -/
theorem pipeline_rasterization_color_topology_index
    (sz : PhysicalSize) (tree : RgbaImage) :
    (State.new sz tree).render_pipeline.rasterization_state =
      some { front_face := FrontFace.Ccw
             cull_mode := CullMode.Back
             depth_bias := 0
             depth_bias_slope_scale := 0
             depth_bias_clamp := 0 } ∧
    (State.new sz tree).render_pipeline.color_states =
      [ { format := (State.new sz tree).sc_desc.format
          alpha_blend := BlendDescriptor.REPLACE
          color_blend := BlendDescriptor.REPLACE
          write_mask := ColorWrite.ALL } ] ∧
    (State.new sz tree).render_pipeline.primitive_topology =
      PrimitiveTopology.TriangleList ∧
    (State.new sz tree).render_pipeline.vertex_state.index_format =
      IndexFormat.Uint16 :=
  ⟨rfl, rfl, rfl, rfl⟩

/-- C10: `State::input` leaves the session state unchanged and returns
`false` for every window event, so the event loop's window-event arm always
falls through to its default handling (close, escape, resize). -/
theorem input_always_unhandled_falls_through (s : State)
    (cf : ControlFlow) (event : WindowEvent) :
    s.input event = (false, s) ∧
    handleWindowEvent s cf event = defaultWindowEventHandling s cf event :=
  ⟨rfl, rfl⟩

end Playground
